import Mathlib

/-!
Verification of the `ChatPDFProcessor` orchestration pipeline (`src/main.py`).

The source is a thin retrieval-augmented question-answering controller wiring
together external collaborators (PDF loader, text splitter, embedding model,
Chroma vector store, Ollama chat model, Tavily HTTP search API).  The shallow
embedding below models the controller's own state and control flow exactly,
and treats each external collaborator as an explicit function argument
(an oracle): `load` for `PyPDFLoader(...).load()`, `split_documents` for
`self.text_splitter.split_documents`, `search` for `self.retriever.invoke`,
`llm` for the `prompt | llm | StrOutputParser` chain tail, and `post` for
`requests.post` against the Tavily endpoint.  Raising a Python exception is
modelled as returning `Except.error`; mutation of `self` is modelled by
explicit state passing, with every operation returning the updated state.
-/

namespace ChatPDF

/-- A metadata value attached to a loaded document / chunk.  Chroma only
accepts scalar metadata; `nested` stands for any non-scalar (list / dict)
value that `filter_complex_metadata` strips. -/
inductive MetadataValue where
  | str (s : String)
  | int (n : Int)
  | boolean (b : Bool)
  | nested
deriving DecidableEq, Repr

/-- Whether a metadata value is of a simple scalar type. -/
def MetadataValue.isSimple : MetadataValue → Bool
  | .nested => false
  | _ => true

/-- A langchain `Document`: page content plus metadata. -/
structure Doc where
  page_content : String
  metadata : List (String × MetadataValue)
deriving DecidableEq, Repr

/-- `langchain_community.vectorstores.utils.filter_complex_metadata`: keeps
only the scalar-typed metadata entries of each document. -/
def filter_complex_metadata (documents : List Doc) : List Doc :=
  documents.map fun d =>
    { d with metadata := d.metadata.filter fun kv => kv.2.isSimple }

/-- The Chroma vector index built from a list of chunks.  The embedding model
identifier and persist directory are recorded; similarity search over the
stored chunks is external (an oracle at the call sites). -/
structure VectorStore where
  docs : List Doc
  embedding : String
  persist_directory : String
deriving DecidableEq, Repr

namespace Chroma

/-- `Chroma.from_documents(documents=chunks, embedding=..., persist_directory=...)`:
creates a fresh index holding exactly the given chunks. -/
def from_documents (documents : List Doc) (embedding : String)
    (persist_directory : String) : VectorStore :=
  { docs := documents, embedding := embedding,
    persist_directory := persist_directory }

end Chroma

/-- The retriever handle produced by `vector_store.as_retriever(...)`: a search
configuration bound to a specific vector store, with the search type and the
`k` / `score_threshold` parameters it was created with. -/
structure Retriever where
  store : VectorStore
  search_type : String
  k : Nat
  score_threshold : Rat
deriving DecidableEq, Repr

/-- `self.vector_store.as_retriever(search_type='similarity_score_threshold',
search_kwargs={"k": k, "score_threshold": score_threshold})`. -/
def VectorStore.as_retriever (vs : VectorStore) (k : Nat)
    (score_threshold : Rat) : Retriever :=
  { store := vs, search_type := "similarity_score_threshold", k := k,
    score_threshold := score_threshold }

/-- `RecursiveCharacterTextSplitter(chunk_size=1024, chunk_overlap=100)`:
the configuration object held in `self.text_splitter`. -/
structure RecursiveCharacterTextSplitter where
  chunk_size : Nat
  chunk_overlap : Nat
deriving DecidableEq, Repr

/-- First fixed part of the prompt template literal (`src/main.py` lines
42-52), up to the `{context}` placeholder. -/
def template_pre : String :=
  "\n            You are a helpful assistant answering questions based on the uploaded document.\n            Context:\n            "

/-- Fixed part of the prompt template between the `{context}` and
`{question}` placeholders. -/
def template_mid : String :=
  "\n            \n            Question:\n            "

/-- Fixed part of the prompt template after the `{question}` placeholder. -/
def template_post : String :=
  "\n            \n            Provide a clear and helpful explanation.\n            "

/-- The raw template text passed to `ChatPromptTemplate.from_template`. -/
def prompt_template_text : String :=
  template_pre ++ "{context}" ++ template_mid ++ "{question}" ++ template_post

/-- The `ChatPromptTemplate` object, modelled by its formatting function:
substituting the `context` and `question` variables into the fixed template
yields the rendered prompt. -/
def render_prompt (context question : String) : String :=
  template_pre ++ context ++ template_mid ++ question ++ template_post

/-- The `ChatPDFProcessor` instance state.  External model objects
(`ChatOllama`, `OllamaEmbeddings`) are represented by the model identifiers
they were constructed from; the prompt template by its formatting function. -/
structure ChatPDFProcessor where
  llm_model : String
  embedding_model : String
  text_splitter : RecursiveCharacterTextSplitter
  prompt_template : String → String → String
  vector_store : Option VectorStore
  retriever : Option Retriever
  tavily_api_key : Option String

/-- `ChatPDFProcessor.__init__`: stores the model identifiers, the splitter
configured with chunk size 1024 / overlap 100, the fixed prompt template, the
Tavily API key, and starts with no vector store and no retriever. -/
def ChatPDFProcessor.init (llm_model : String) (embedding_model : String)
    (tavily_api_key : Option String) : ChatPDFProcessor :=
  { llm_model := llm_model
    embedding_model := embedding_model
    text_splitter := { chunk_size := 1024, chunk_overlap := 100 }
    prompt_template := render_prompt
    vector_store := none
    retriever := none
    tavily_api_key := tavily_api_key }

/-- A failure of `PyPDFLoader(...).load()` (unreadable / unparsable
document), carrying its message. -/
structure LoadError where
  msg : String
deriving DecidableEq, Repr

/-- An exception escaping the query path: the `ValueError` raised when no
document has been ingested, or the JSON decode error raised by
`response.json()` on a malformed body. -/
inductive QueryError where
  | valueError (msg : String)
  | jsonDecodeError
deriving DecidableEq, Repr

/-- `ChatPDFProcessor.ingest_pdf`: loads the document at `pdf_file_path`
(external loader `load`), splits it into chunks (external splitter
`split_documents`), filters complex metadata, and replaces
`self.vector_store` with a fresh Chroma index over the chunks.  A loader
failure propagates before any state is modified; the retriever field is not
touched by this method. -/
def ingest_pdf (load : String → Except LoadError (List Doc))
    (split_documents : List Doc → List Doc)
    (st : ChatPDFProcessor) (pdf_file_path : String) :
    Except LoadError Unit × ChatPDFProcessor :=
  match load pdf_file_path with
  | .error e => (.error e, st)
  | .ok documents =>
      let chunks := split_documents documents
      let chunks := filter_complex_metadata chunks
      (.ok (),
        { st with
          vector_store :=
            some (Chroma.from_documents chunks st.embedding_model "chroma_db") })

/-- An HTTP response from the Tavily endpoint: status code, and the body as
seen by `response.json()` — `some` an association object of string fields
when the body parses as JSON, `none` when it is malformed (in which case
`response.json()` raises). -/
structure HttpResponse where
  status_code : Nat
  body : Option (List (String × String))
deriving DecidableEq, Repr

/-- `ChatPDFProcessor.query_tavily`: POSTs `{"query": query}` with a bearer
token built from `self.tavily_api_key` (the `post` oracle models
`requests.post` keyed by that header and payload).  Status 200 returns the
body's `answer` field, defaulting to `"No answer found in Tavily."`; a
malformed (non-JSON) body on status 200 makes `response.json()` raise; any
other status returns a fixed error string. -/
def query_tavily (post : Option String → String → HttpResponse)
    (st : ChatPDFProcessor) (query : String) : Except QueryError String :=
  let response := post st.tavily_api_key query
  if response.status_code = 200 then
    match response.body with
    | some json => .ok ((json.lookup "answer").getD "No answer found in Tavily.")
    | none => .error .jsonDecodeError
  else
    .ok "Tavily API error. Please try again later."

/-- The retriever a query actually uses, given that `st.vector_store = some vs`:
the cached `self.retriever` when present, otherwise a fresh one built from
the current store with this call's `k` and `score_threshold`
(`src/main.py` lines 91-95). -/
def effective_retriever (st : ChatPDFProcessor) (vs : VectorStore) (k : Nat)
    (score_threshold : Rat) : Retriever :=
  match st.retriever with
  | none => vs.as_retriever k score_threshold
  | some r => r

/-- `ChatPDFProcessor.query_document`: raises `ValueError` when no vector
store exists; otherwise lazily builds and caches the retriever, invokes it
(the `search` oracle models `self.retriever.invoke`), and either falls back
to Tavily on an empty result or renders the prompt from the joined chunk
texts and invokes the LLM chain (the `llm` oracle models
`llm_model | StrOutputParser`).  Returns the answer (or exception) together
with the updated state. -/
def query_document (search : Retriever → String → List Doc)
    (llm : String → String) (post : Option String → String → HttpResponse)
    (st : ChatPDFProcessor) (query : String) (k : Nat)
    (score_threshold : Rat) : Except QueryError String × ChatPDFProcessor :=
  match st.vector_store with
  | none =>
      (.error (.valueError "No document ingested. Please ingest a document first."), st)
  | some vs =>
      let retriever := effective_retriever st vs k score_threshold
      let st := { st with retriever := some retriever }
      let retrieved_docs := search retriever query
      if retrieved_docs.isEmpty then
        (query_tavily post st query, st)
      else
        let context := String.intercalate "\n\n" (retrieved_docs.map Doc.page_content)
        (.ok (llm (st.prompt_template context query)), st)

/-- `ChatPDFProcessor.clear_data`: drops the vector store and retriever
handles, leaving every other field untouched. -/
def clear_data (st : ChatPDFProcessor) : ChatPDFProcessor :=
  { st with vector_store := none, retriever := none }

/-- Modelled from the spec: the text splitter itself
(`RecursiveCharacterTextSplitter.split_documents`) is external library code
not present in this repository; the spec describes the Chunker as splitting
"raw document text into overlapping windows of bounded size" with the fixed
policy chunk size 1024 and overlap 100.  `chunk1024` realises that on the
document text as a character list: each chunk is a window of 1024 characters
starting 924 (= 1024 - 100) characters after its predecessor, the final
window holding whatever remains. -/
def chunk1024 (l : List Char) : List (List Char) :=
  if l.length = 0 then []
  else if l.length ≤ 1024 then [l]
  else l.take 1024 :: chunk1024 (l.drop 924)
termination_by l.length
decreasing_by
  simp only [List.length_drop]
  omega

/-! ### Concrete fixtures

Concrete oracle instantiations and session states used by the closed
counterexample and witness statements below.  `search_by_store` returns
exactly the chunks stored in the retriever's bound store (a degenerate but
legitimate similarity search); `llm_id` echoes its prompt; `post_500`
models a Tavily outage; `search_if_k3` retrieves nothing exactly when the
retriever was built with `k = 3`. -/

/-- A one-chunk document with content `"alpha"`. -/
def docA : Doc := { page_content := "alpha", metadata := [] }

/-- A one-chunk document with content `"beta"`. -/
def docB : Doc := { page_content := "beta", metadata := [] }

/-- A loader oracle that successfully loads the given single document for
any path. -/
def load_doc (d : Doc) : String → Except LoadError (List Doc) :=
  fun _ => .ok [d]

/-- A loader oracle that always fails (unreadable / unparsable document). -/
def load_fail : String → Except LoadError (List Doc) :=
  fun _ => .error { msg := "file not found" }

/-- A splitter oracle that keeps each loaded document as a single chunk. -/
def split_id : List Doc → List Doc := fun ds => ds

/-- A search oracle returning every chunk of the store the retriever is
bound to. -/
def search_by_store : Retriever → String → List Doc :=
  fun r _ => r.store.docs

/-- A search oracle that finds nothing for any retriever and query. -/
def search_none : Retriever → String → List Doc := fun _ _ => []

/-- A search oracle that finds nothing exactly when the retriever was built
with `k = 3`, and the bound store's chunks otherwise. -/
def search_if_k3 : Retriever → String → List Doc :=
  fun r _ => if r.k = 3 then [] else r.store.docs

/-- An LLM oracle echoing the rendered prompt it receives. -/
def llm_id : String → String := fun s => s

/-- A Tavily endpoint oracle answering every request with status 500. -/
def post_500 : Option String → String → HttpResponse :=
  fun _ _ => { status_code := 500, body := none }

/-- A Tavily endpoint oracle answering with status 200 and the JSON body
`{"answer": "42"}`. -/
def post_200_answer : Option String → String → HttpResponse :=
  fun _ _ => { status_code := 200, body := some [("answer", "42")] }

/-- A Tavily endpoint oracle answering with status 200 and the JSON body
`{"other": "x"}` (no `answer` field). -/
def post_200_noanswer : Option String → String → HttpResponse :=
  fun _ _ => { status_code := 200, body := some [("other", "x")] }

/-- A Tavily endpoint oracle answering with status 200 and a body that is
not valid JSON. -/
def post_200_malformed : Option String → String → HttpResponse :=
  fun _ _ => { status_code := 200, body := none }

/-- The score threshold 1/5 (the source's default 0.2). -/
def t0 : Rat := 1 / 5

/-- A freshly constructed processor. -/
def st0 : ChatPDFProcessor :=
  ChatPDFProcessor.init "deepseek-coder:latest" "mxbai-embed-large" (some "tvly-key")

/-- The index created by ingesting `docA`. -/
def storeA : VectorStore :=
  Chroma.from_documents [docA] "mxbai-embed-large" "chroma_db"

/-- The index created by ingesting `docB`. -/
def storeB : VectorStore :=
  Chroma.from_documents [docB] "mxbai-embed-large" "chroma_db"

/-- State after ingesting `docA` into the fresh processor. -/
def st1 : ChatPDFProcessor :=
  (ingest_pdf (load_doc docA) split_id st0 "a.pdf").2

/-- State after a first query on `st1` with `k = 5`, which lazily builds and
caches the retriever bound to `storeA` with `k = 5`. -/
def st2 : ChatPDFProcessor :=
  (query_document search_by_store llm_id post_500 st1 "q" 5 t0).2

/-- State after re-ingesting a different document (`docB`) without clearing:
the vector store is replaced, the cached retriever is untouched. -/
def st3 : ChatPDFProcessor :=
  (ingest_pdf (load_doc docB) split_id st2 "b.pdf").2

/-! ### Claim theorems -/

/-- C2: in every session in which no index exists — the freshly constructed
processor before any ingestion, and any state reached by `clear_data` —
`query_document` raises the `ValueError` "No document ingested. Please
ingest a document first." (the spec's `StateError`), returns no answer, and
leaves the state unchanged. -/
theorem query_without_index_raises
    (search : Retriever → String → List Doc) (llm : String → String)
    (post : Option String → String → HttpResponse) (st : ChatPDFProcessor)
    (q : String) (k : Nat) (t : Rat) (lm em : String) (key : Option String) :
    (st.vector_store = none →
      query_document search llm post st q k t =
        (.error (.valueError "No document ingested. Please ingest a document first."), st))
    ∧ (ChatPDFProcessor.init lm em key).vector_store = none
    ∧ query_document search llm post (clear_data st) q k t =
        (.error (.valueError "No document ingested. Please ingest a document first."),
          clear_data st) := by
  refine ⟨fun h => ?_, rfl, ?_⟩
  · simp only [query_document, h]
  · simp only [query_document, clear_data]

/-- C2 witness: on the freshly constructed processor `st0`, querying raises
the "no document ingested" `ValueError`. -/
theorem query_without_index_raises_witness :
    query_document search_by_store llm_id post_500 st0 "q" 5 t0 =
      (.error (.valueError "No document ingested. Please ingest a document first."), st0) :=
  (query_without_index_raises search_by_store llm_id post_500 st0 "q" 5 t0
    "deepseek-coder:latest" "mxbai-embed-large" none).1 rfl

/-- C7: if the loader fails on the given path, `ingest_pdf` raises exactly
that load error and the session state — the entire processor, in particular
the vector store and retriever handles — is exactly what it was before the
call. -/
theorem ingest_atomic_on_load_failure
    (load : String → Except LoadError (List Doc))
    (split : List Doc → List Doc) (st : ChatPDFProcessor)
    (path : String) (e : LoadError) (hload : load path = .error e) :
    ingest_pdf load split st path = (.error e, st) := by
  simp only [ingest_pdf, hload]

/-- C7 witness: ingesting an unreadable document on `st1` propagates the
load error and leaves `st1` (index and retriever included) untouched. -/
theorem ingest_atomic_on_load_failure_witness :
    ingest_pdf load_fail split_id st1 "missing.pdf" =
      (.error { msg := "file not found" }, st1) :=
  ingest_atomic_on_load_failure load_fail split_id st1 "missing.pdf"
    { msg := "file not found" } rfl

/-- C10: `clear_data` sets the vector store and retriever handles to `none`
and leaves every other field of the processor — LLM model, embedding model,
text splitter, prompt template, Tavily API key — unchanged. -/
theorem clear_data_frame (st : ChatPDFProcessor) :
    (clear_data st).vector_store = none
    ∧ (clear_data st).retriever = none
    ∧ (clear_data st).llm_model = st.llm_model
    ∧ (clear_data st).embedding_model = st.embedding_model
    ∧ (clear_data st).text_splitter = st.text_splitter
    ∧ (clear_data st).prompt_template = st.prompt_template
    ∧ (clear_data st).tavily_api_key = st.tavily_api_key :=
  ⟨rfl, rfl, rfl, rfl, rfl, rfl, rfl⟩

/-- C3: for every query after ingestion, if the similarity search performed
by the retriever actually in use returns zero entries, `query_document`'s
returned answer is exactly `query_tavily`'s result for the same raw question
string — verbatim pass-through, including a fallback failure. -/
theorem query_fallback_passthrough
    (search : Retriever → String → List Doc) (llm : String → String)
    (post : Option String → String → HttpResponse) (st : ChatPDFProcessor)
    (q : String) (k : Nat) (t : Rat) (vs : VectorStore)
    (hvs : st.vector_store = some vs)
    (hempty : search (effective_retriever st vs k t) q = []) :
    (query_document search llm post st q k t).1 = query_tavily post st q := by
  simp only [query_document, hvs, hempty, List.isEmpty_nil, if_true, query_tavily]

/-- C3 witness: on the ingested state `st1` with a search finding nothing,
the query's answer is exactly the Tavily client's result for `"q"`. -/
theorem query_fallback_passthrough_witness :
    (query_document search_none llm_id post_500 st1 "q" 5 t0).1 =
      query_tavily post_500 st1 "q" :=
  query_fallback_passthrough search_none llm_id post_500 st1 "q" 5 t0 storeA
    rfl rfl

/-- C8: for every query whose retrieval result is non-empty, the answer is
the LLM oracle applied to the prompt obtained by substituting the
blank-line-joined chunk texts (in result order) and the question into the
processor's prompt template, returned unchanged. -/
theorem query_answers_from_retrieved_context
    (search : Retriever → String → List Doc) (llm : String → String)
    (post : Option String → String → HttpResponse) (st : ChatPDFProcessor)
    (q : String) (k : Nat) (t : Rat) (vs : VectorStore)
    (hvs : st.vector_store = some vs)
    (hne : search (effective_retriever st vs k t) q ≠ []) :
    (query_document search llm post st q k t).1 =
      .ok (llm (st.prompt_template
        (String.intercalate "\n\n"
          ((search (effective_retriever st vs k t) q).map Doc.page_content)) q)) := by
  cases hd : search (effective_retriever st vs k t) q with
  | nil => exact absurd hd hne
  | cons a as =>
    simp only [query_document, hvs, hd, List.isEmpty_cons, Bool.false_eq_true,
      if_false]

/-- C8 witness: on `st1` with the store-echoing search, the answer is the
rendered prompt over the single retrieved chunk `"alpha"`. -/
theorem query_answers_from_retrieved_context_witness :
    (query_document search_by_store llm_id post_500 st1 "q" 5 t0).1 =
      .ok (llm_id (st1.prompt_template
        (String.intercalate "\n\n"
          ((search_by_store (effective_retriever st1 storeA 5 t0) "q").map
            Doc.page_content)) "q")) :=
  query_answers_from_retrieved_context search_by_store llm_id post_500 st1
    "q" 5 t0 storeA rfl (by decide)

/-- C9: for every Tavily call whose response has status 200 and a body that
parses as JSON, the returned string is the body's `answer` field when
present, and the literal "No answer found in Tavily." when absent. -/
theorem tavily_success_returns_answer_field
    (post : Option String → String → HttpResponse) (st : ChatPDFProcessor)
    (q : String) (json : List (String × String))
    (hstatus : (post st.tavily_api_key q).status_code = 200)
    (hbody : (post st.tavily_api_key q).body = some json) :
    (∀ a, json.lookup "answer" = some a → query_tavily post st q = .ok a)
    ∧ (json.lookup "answer" = none →
        query_tavily post st q = .ok "No answer found in Tavily.") := by
  constructor
  · intro a ha
    simp only [query_tavily, hstatus, hbody, ha, if_true, Option.getD_some]
  · intro ha
    simp only [query_tavily, hstatus, hbody, ha, if_true, Option.getD_none]

/-- C9 witness: a 200 response with body `{"answer": "42"}` makes the Tavily
client return `"42"`. -/
theorem tavily_success_returns_answer_field_witness :
    query_tavily post_200_answer st0 "q" = .ok "42" :=
  (tavily_success_returns_answer_field post_200_answer st0 "q"
    [("answer", "42")] rfl rfl).1 "42" (by decide)

/-- C4 counterexample: a status-200 response whose body is malformed
(not JSON) makes `query_tavily` raise the JSON decode error instead of
returning an informational string — refuting "the fallback search call never
raises an exception ... for every response with a malformed body". -/
theorem tavily_malformed_body_raises :
    query_tavily post_200_malformed st0 "q" = .error .jsonDecodeError := rfl

/-- C4 amended: every non-200 response is converted to the literal
"try again later" string without raising, and every 200 response whose body
parses as JSON yields a returned string; only a 200 response with a
malformed body raises (`response.json()` propagates). -/
theorem tavily_soft_failure
    (post : Option String → String → HttpResponse) (st : ChatPDFProcessor)
    (q : String) :
    ((post st.tavily_api_key q).status_code ≠ 200 →
      query_tavily post st q = .ok "Tavily API error. Please try again later.")
    ∧ (∀ json, (post st.tavily_api_key q).body = some json →
        ∃ s, query_tavily post st q = .ok s) := by
  constructor
  · intro h
    simp only [query_tavily, if_neg h]
  · intro json hbody
    by_cases hs : (post st.tavily_api_key q).status_code = 200
    · exact ⟨(json.lookup "answer").getD "No answer found in Tavily.",
        by simp only [query_tavily, hs, hbody, if_true]⟩
    · exact ⟨"Tavily API error. Please try again later.",
        by simp only [query_tavily, if_neg hs]⟩

/-- C4 witness: a 500 response degrades to the literal error string. -/
theorem tavily_soft_failure_witness :
    query_tavily post_500 st0 "q" =
      .ok "Tavily API error. Please try again later." :=
  (tavily_soft_failure post_500 st0 "q").1 (by decide)

/-- C1 counterexample: ingest `docA`, query once (caching a retriever bound
to `storeA`), then successfully re-ingest `docB`.  The new index `storeB` is
installed, yet the cached retriever still bound to the replaced `storeA`
survives, and the next query's answer is generated from `storeA`'s chunk
`"alpha"` — refuting "any previously cached retriever handle is invalidated
and rebuilt, so every subsequent query() performs its similarity search
against the newly created index". -/
theorem stale_retriever_after_reingest :
    st3.vector_store = some storeB
    ∧ st3.retriever = some (storeA.as_retriever 5 t0)
    ∧ storeA ≠ storeB
    ∧ (query_document search_by_store llm_id post_500 st3 "q" 5 t0).1 =
        .ok (render_prompt "alpha" "q") :=
  ⟨rfl, rfl, by decide, rfl⟩

/-- C1 amended: every successful `ingest_pdf` installs the freshly built
index as the current vector store, but leaves the retriever field exactly as
it was — a previously cached retriever handle is NOT invalidated, so
subsequent queries reuse it (bound to the prior index) until `clear_data`
drops it. -/
theorem reingest_replaces_index_keeps_retriever
    (load : String → Except LoadError (List Doc))
    (split : List Doc → List Doc) (st : ChatPDFProcessor) (path : String)
    (docs : List Doc) (hload : load path = .ok docs) :
    (ingest_pdf load split st path).2.vector_store =
      some (Chroma.from_documents (filter_complex_metadata (split docs))
        st.embedding_model "chroma_db")
    ∧ (ingest_pdf load split st path).2.retriever = st.retriever := by
  simp [ingest_pdf, hload]

/-- C1 amended witness: re-ingesting `docB` on the retriever-caching state
`st2` installs the `docB` index while keeping `st2`'s cached retriever. -/
theorem reingest_replaces_index_keeps_retriever_witness :
    (ingest_pdf (load_doc docB) split_id st2 "b.pdf").2.vector_store =
      some (Chroma.from_documents (filter_complex_metadata (split_id [docB]))
        st2.embedding_model "chroma_db")
    ∧ (ingest_pdf (load_doc docB) split_id st2 "b.pdf").2.retriever =
        st2.retriever :=
  reingest_replaces_index_keeps_retriever (load_doc docB) split_id st2
    "b.pdf" [docB] rfl

/-- C6 counterexample: after a first query cached the retriever with
`k = 5`, a second call passing `k = 3` is answered from a non-empty
retrieval even though a similarity search with this call's own `k = 3`
returns zero entries (which, per the code's fallback branch, would have
produced the Tavily error string) — refuting "the k and score_threshold
arguments passed by the caller govern that call's retrieval, for every
call". -/
theorem cached_retriever_ignores_later_params :
    search_if_k3 (storeA.as_retriever 3 t0) "q2" = []
    ∧ (query_document search_if_k3 llm_id post_500 st2 "q2" 3 t0).1 =
        .ok (render_prompt "alpha" "q2")
    ∧ query_tavily post_500 st2 "q2" =
        .ok "Tavily API error. Please try again later."
    ∧ render_prompt "alpha" "q2" ≠ "Tavily API error. Please try again later." :=
  ⟨rfl, rfl, rfl, by decide⟩

/-- C6 amended: the `k` and `score_threshold` of the call that builds the
retriever (the first query after ingestion or clearing) govern retrieval;
any later call finding a cached retriever behaves identically whatever `k`
and `score_threshold` it passes. -/
theorem retriever_params_fixed_at_first_query
    (search : Retriever → String → List Doc) (llm : String → String)
    (post : Option String → String → HttpResponse) (st : ChatPDFProcessor)
    (q : String) (k : Nat) (t : Rat) (k2 : Nat) (t2 : Rat)
    (vs : VectorStore) (r : Retriever) :
    (st.retriever = none →
      effective_retriever st vs k t = vs.as_retriever k t)
    ∧ (st.retriever = some r →
      query_document search llm post st q k t =
        query_document search llm post st q k2 t2) := by
  constructor
  · intro h
    simp only [effective_retriever, h]
  · intro hr
    cases hvs : st.vector_store with
    | none => simp only [query_document, hvs]
    | some vs2 => simp only [query_document, hvs, effective_retriever, hr]

/-- C6 amended witness: on `st2` (cached retriever with `k = 5`), passing
`k = 3, threshold = 1/5` or `k = 7, threshold = 0` yields identical
behavior. -/
theorem retriever_params_fixed_at_first_query_witness :
    query_document search_by_store llm_id post_500 st2 "q3" 3 t0 =
      query_document search_by_store llm_id post_500 st2 "q3" 7 0 :=
  (retriever_params_fixed_at_first_query search_by_store llm_id post_500 st2
    "q3" 3 t0 7 0 storeA (storeA.as_retriever 5 t0)).2 rfl

/-- Every chunk produced by `chunk1024` has at most 1024 characters. -/
theorem chunk1024_length_le (l : List Char) :
    ∀ c ∈ chunk1024 l, c.length ≤ 1024 := by
  induction l using chunk1024.induct with
  | case1 x h =>
    intro c hc
    rw [chunk1024] at hc
    simp [h] at hc
  | case2 x h1 h2 =>
    intro c hc
    rw [chunk1024] at hc
    simp only [h1, h2, if_true, if_false, List.mem_singleton] at hc
    simp [hc, h2]
  | case3 x h1 h2 ih =>
    intro c hc
    rw [chunk1024] at hc
    simp only [h1, h2, if_false, List.mem_cons] at hc
    rcases hc with hc | hc
    · subst hc
      simp [List.length_take]
    · exact ih c hc

/-- The first chunk of a nonempty chunking starts with the first 100
characters of the text being chunked. -/
theorem chunk1024_head_take (m b : List Char) (cs : List (List Char))
    (h : chunk1024 m = b :: cs) : b.take 100 = m.take 100 := by
  rw [chunk1024] at h
  by_cases h0 : m.length = 0
  · simp [h0] at h
  · by_cases h1 : m.length ≤ 1024
    · simp only [h0, h1, if_true, if_false] at h
      rw [List.cons.injEq] at h
      rw [← h.1]
    · simp only [h0, h1, if_false] at h
      rw [List.cons.injEq] at h
      rw [← h.1, List.take_take]
      norm_num

/-- Every pair of consecutive chunks overlaps by exactly 100 characters: the
left chunk of each pair is a full 1024-character window whose last 100
characters (positions 924 to 1023) are exactly the first 100 characters of
the right chunk. -/
theorem chunk1024_chain (l : List Char) :
    List.Chain' (fun a b => a.length = 1024 ∧ a.drop 924 = b.take 100)
      (chunk1024 l) := by
  induction l using chunk1024.induct with
  | case1 x h => rw [chunk1024]; simp [h]
  | case2 x h1 h2 => rw [chunk1024]; simp [h1, h2]
  | case3 x h1 h2 ih =>
    rw [chunk1024]
    simp only [h1, h2, if_false]
    refine List.Chain'.cons' ih ?_
    intro b hb
    obtain ⟨cs, hck⟩ : ∃ cs, chunk1024 (x.drop 924) = b :: cs := by
      cases hck : chunk1024 (x.drop 924) with
      | nil => rw [hck] at hb; simp at hb
      | cons b0 cs =>
        rw [hck] at hb
        simp only [List.head?_cons, Option.mem_some_iff] at hb
        exact ⟨cs, by rw [hb]⟩
    have hbt : b.take 100 = (x.drop 924).take 100 :=
      chunk1024_head_take _ _ _ hck
    constructor
    · rw [List.length_take]
      omega
    · rw [hbt, List.drop_take]

/-- C5: for every document text, chunking with size 1024 / overlap 100
produces chunks of at most 1024 characters each, and every pair of
consecutive chunks overlaps by exactly 100 characters (the left chunk's last
100 characters are the right chunk's first 100) — in fact for all pairs, so
in particular for all pairs not involving the final chunk. -/
theorem chunking_size_and_overlap (text : List Char) :
    (∀ c ∈ chunk1024 text, c.length ≤ 1024)
    ∧ List.Chain' (fun a b => a.length = 1024 ∧ a.drop 924 = b.take 100)
        (chunk1024 text) :=
  ⟨chunk1024_length_le text, chunk1024_chain text⟩

/-- C5 witness: the chunking properties instantiated on a concrete text. -/
theorem chunking_size_and_overlap_witness :
    (∀ c ∈ chunk1024 "a small document".data, c.length ≤ 1024)
    ∧ List.Chain' (fun a b => a.length = 1024 ∧ a.drop 924 = b.take 100)
        (chunk1024 "a small document".data) :=
  chunking_size_and_overlap "a small document".data

end ChatPDF
